import Mathlib

/-!
Verification development for the OTP authentication / session / consent
subsystem of this repository, which appears in two variants:
`src/api/app.py` (doctor OTP login with salted HMAC storage and JWT
sessions) and `src/healthcare_app.py` (employee/patient OTP flows with
raw-secret in-memory stores and a consent-grant session field).

Python `dict` stores keyed by strings are embedded as functions
`String → Option α`; wall-clock time is an explicit `Nat` parameter
(seconds); randomly generated values (secrets, salts, token ids) are
explicit parameters of the operations that the source draws from a
random source.
-/

/-- Overwrite-or-insert on a string-keyed map (Python `d[k] = v`). -/
def upd {α : Type} (s : String → Option α) (k : String) (v : α) : String → Option α :=
  fun k2 => if k2 = k then some v else s k2

/-- Deletion on a string-keyed map (Python `d.pop(k, None)`). -/
def del {α : Type} (s : String → Option α) (k : String) : String → Option α :=
  fun k2 => if k2 = k then none else s k2

theorem upd_same {α : Type} (s : String → Option α) (k : String) (v : α) :
    upd s k v k = some v := by
  simp [upd]

theorem upd_ne {α : Type} (s : String → Option α) (k k2 : String) (v : α) (h : k2 ≠ k) :
    upd s k v k2 = s k2 := by
  simp [upd, h]

theorem del_same {α : Type} (s : String → Option α) (k : String) :
    del s k k = none := by
  simp [del]

theorem del_ne {α : Type} (s : String → Option α) (k k2 : String) (h : k2 ≠ k) :
    del s k k2 = s k2 := by
  simp [del, h]

theorem upd_upd {α : Type} (s : String → Option α) (k : String) (v1 v2 : α) :
    upd (upd s k v1) k v2 = upd s k v2 := by
  funext k2
  by_cases h : k2 = k <;> simp [upd, h]

/-- Python `str.strip()`: drop leading and trailing whitespace. -/
def pyStrip (s : String) : String :=
  ⟨((s.data.dropWhile Char.isWhitespace).reverse.dropWhile Char.isWhitespace).reverse⟩

namespace ApiApp

/-! Embedding of `src/api/app.py`. -/

/-- Model of `hash_otp` (app.py:42-44): HMAC-SHA256 keyed by the salt.
The HMAC is idealised as a collision-free function, i.e. the pair of its
two inputs. -/
structure Digest where
  msg : String
  key : String
deriving DecidableEq

/-- `hash_otp(otp, salt)` = HMAC(salt, otp) (app.py:42-44). -/
def hash_otp (otp salt : String) : Digest := ⟨otp, salt⟩

/-- `hmac.compare_digest` (used at app.py:157): a constant-time equality
check on digests; in the embedding, timing is not observable and the
result is plain equality of the digest values. -/
def compare_digest (a b : Digest) : Bool := decide (a = b)

/-- A stored OTP record (app.py:50): `{"h": h, "salt": salt, "expires_at": ...}`.
There is no attempts counter in this variant. -/
structure OtpRecord where
  h : Digest
  salt : String
  expires_at : Nat
deriving DecidableEq

/-- The in-memory `_otp_store` (app.py:35), keyed by `"otp:" ++ doctor_id`. -/
def OtpStore : Type := String → Option OtpRecord

/-- `store_otp` (app.py:46-56), non-Redis branch. The generated salt is a
parameter (source: `secrets.token_hex(16)`). -/
def store_otp (store : OtpStore) (now : Nat) (doctor_id otp salt : String) (ttl : Nat) :
    OtpStore :=
  upd store ("otp:" ++ doctor_id) ⟨hash_otp otp salt, salt, now + ttl⟩

/-- `get_otp_record` (app.py:58-67), non-Redis branch: a plain lookup,
with no expiry comparison of its own. -/
def get_otp_record (store : OtpStore) (doctor_id : String) : Option OtpRecord :=
  store ("otp:" ++ doctor_id)

/-- `remove_otp` (app.py:69-74), non-Redis branch. -/
def remove_otp (store : OtpStore) (doctor_id : String) : OtpStore :=
  del store ("otp:" ++ doctor_id)

/-- Outcome of the `/api/request_otp` endpoint (app.py:123-137). -/
inductive RequestResult where
  | missingDoctorId
  | okSent
deriving DecidableEq

/-- `api_request_otp` (app.py:123-137): strips the doctor id, generates an
OTP and stores it; the generated OTP and salt are parameters. The OTP is
handed to `send_otp_demo` (out-of-band logging) and does not appear in the
result. -/
def api_request_otp (store : OtpStore) (now validity : Nat) (doctor_id_raw otp salt : String) :
    RequestResult × OtpStore :=
  let doctor_id := pyStrip doctor_id_raw
  if doctor_id = "" then (.missingDoctorId, store)
  else (.okSent, store_otp store now doctor_id otp salt validity)

/-- JSON body of the `/api/request_otp` responses (app.py:128,133-137):
(status, message, otp_validity_seconds). -/
def requestResponse (validity : Nat) : RequestResult → Nat × String × Option Nat
  | .missingDoctorId => (400, "doctor_id required", none)
  | .okSent => (200, "OTP generated and sent (demo)", some validity)

/-- Outcome of the `/api/verify_otp` endpoint (app.py:139-167). -/
inductive VerifyResult where
  | missingFields
  | notFound
  | expired
  | invalid
  | success (doctor_id : String)
deriving DecidableEq

/-- `api_verify_otp` (app.py:139-167): strips inputs, looks the record up,
checks expiry (`now_ts() > expires_at`), then compares the recomputed hash
with `hmac.compare_digest`; deletes the record on success or expiry, and
returns without touching the store on mismatch. Token issuance on the
success path is modelled separately (`create_session_token`). -/
def api_verify_otp (store : OtpStore) (now : Nat) (doctor_id_raw otp_raw : String) :
    VerifyResult × OtpStore :=
  let doctor_id := pyStrip doctor_id_raw
  let otp_in := pyStrip otp_raw
  if doctor_id = "" ∨ otp_in = "" then (.missingFields, store)
  else
    match get_otp_record store doctor_id with
    | none => (.notFound, store)
    | some rec1 =>
      if rec1.expires_at < now then (.expired, remove_otp store doctor_id)
      else if ¬ compare_digest rec1.h (hash_otp otp_in rec1.salt) then (.invalid, store)
      else (.success doctor_id, remove_otp store doctor_id)

/-- HTTP status and error body of each `/api/verify_otp` outcome
(app.py:145,149,153,158,162-167). -/
def verifyResponse : VerifyResult → Nat × Option String
  | .missingFields => (400, some "doctor_id and otp required")
  | .notFound => (400, some "no valid otp found for this identifier or it expired")
  | .expired => (400, some "otp expired")
  | .invalid => (401, some "invalid otp")
  | .success _ => (200, none)

/-! JWT session tokens (app.py:76-100, 169-205). -/

/-- The JWT claims set (app.py:80). -/
structure TokenPayload where
  sub : String
  exp : Nat
  iat : Nat
  jti : String
deriving DecidableEq

/-- A signed token: the HMAC-SHA256 signature of the PyJWT encoding is
idealised as the unforgeable pair (key, payload). -/
structure SignedToken where
  payload : TokenPayload
  sig : String × TokenPayload
deriving DecidableEq

/-- `jwt.encode(payload, JWT_SECRET, algorithm="HS256")` (app.py:81). -/
def jwt_encode (payload : TokenPayload) (key : String) : SignedToken :=
  ⟨payload, (key, payload)⟩

/-- Outcome of `jwt.decode` (app.py:177-181). -/
inductive DecodeOutcome where
  | expiredSignature
  | invalidToken
  | ok (payload : TokenPayload)
deriving DecidableEq

/-- Model of PyJWT `jwt.decode` with signature verification and `exp`
validation: the signature is checked first; the token is expired when
`exp ≤ now` (PyJWT rejects when `exp <= now - leeway` with zero leeway,
so a token is accepted on the expiry claim exactly when `now < exp`). -/
def jwt_decode (token : SignedToken) (key : String) (now : Nat) : DecodeOutcome :=
  if token.sig ≠ (key, token.payload) then .invalidToken
  else if token.payload.exp ≤ now then .expiredSignature
  else .ok token.payload

/-- `create_session_token` (app.py:76-82); the random `jti` is a
parameter. Returns (token, jti, expiry timestamp). -/
def create_session_token (doctor_id : String) (now expiry_seconds : Nat) (jti key : String) :
    SignedToken × String × Nat :=
  let exp := now + expiry_seconds
  (jwt_encode ⟨doctor_id, exp, now, jti⟩ key, jti, exp)

/-- The in-memory `_session_blacklist` (app.py:36): jti ↦ expires_at. -/
def Blacklist : Type := String → Option Nat

/-- `blacklist_session` (app.py:84-88), non-Redis branch. -/
def blacklist_session (bl : Blacklist) (jti : String) (expires_at_ts : Nat) : Blacklist :=
  upd bl jti expires_at_ts

/-- `is_blacklisted` (app.py:90-100), non-Redis branch. Mirrors the
Python truthiness test `if not exp` (an entry of 0 counts as absent) and
the lazy removal of entries past their expiry on read. -/
def is_blacklisted (bl : Blacklist) (now : Nat) (jti : String) : Bool × Blacklist :=
  match bl jti with
  | none => (false, bl)
  | some e =>
    if e = 0 then (false, bl)
    else if e ≤ now then (false, del bl jti)
    else (true, bl)

/-- Outcome of `decode_token_and_validate` (app.py:169-188). -/
inductive ValidateResult where
  | missingHeader
  | tokenExpired
  | invalidToken
  | invalidPayload
  | revoked
  | ok (payload : TokenPayload)
deriving DecidableEq

/-- `decode_token_and_validate` (app.py:169-188). The Bearer-header
extraction (app.py:170-175) is collapsed: `none` stands for a missing or
malformed Authorization header; `some token` for a well-formed
`Bearer <token>` header. -/
def decode_token_and_validate (bl : Blacklist) (key : String) (now : Nat)
    (auth : Option SignedToken) : ValidateResult × Blacklist :=
  match auth with
  | none => (.missingHeader, bl)
  | some token =>
    match jwt_decode token key now with
    | .expiredSignature => (.tokenExpired, bl)
    | .invalidToken => (.invalidToken, bl)
    | .ok payload =>
      if payload.jti = "" then (.invalidPayload, bl)
      else
        match is_blacklisted bl now payload.jti with
        | (true, bl1) => (.revoked, bl1)
        | (false, bl1) => (.ok payload, bl1)

/-- Outcome of `/api/logout` (app.py:198-205). -/
inductive LogoutResult where
  | loggedOut
  | unauthorized (r : ValidateResult)
deriving DecidableEq

/-- `api_logout` (app.py:198-205): validates the bearer token and, if
valid, blacklists its jti until the token's own expiry. -/
def api_logout (bl : Blacklist) (key : String) (now : Nat) (auth : Option SignedToken) :
    LogoutResult × Blacklist :=
  match decode_token_and_validate bl key now auth with
  | (.ok payload, bl1) =>
    if payload.jti ≠ "" then (.loggedOut, blacklist_session bl1 payload.jti payload.exp)
    else (.loggedOut, bl1)
  | (r, bl1) => (.unauthorized r, bl1)

end ApiApp

namespace Healthcare

/-! Embedding of `src/healthcare_app.py` (OTP flows and consent access). -/

/-- An entry of `otp_store` / `patient_login_otp_store`
(healthcare_app.py:78,84,193): the raw secret, absolute expiry, attempts. -/
structure HOtpRecord where
  otp : String
  expires_at : Nat
  attempts : Nat
deriving DecidableEq

/-- The in-memory `otp_store` (healthcare_app.py:78), keyed by identifier. -/
def HOtpStore : Type := String → Option HOtpRecord

/-- `request_otp_for` (healthcare_app.py:190-195): stores the raw OTP with
TTL and zero attempts; the generated OTP is a parameter (source:
`random.randint(100000, 999999)`), TTL is the `OTP_TTL_SECONDS`
configuration. The dev-log delivery is out of band. -/
def request_otp_for (ttlSeconds : Nat) (store : HOtpStore) (now : Nat)
    (identifier otp : String) : HOtpStore :=
  upd store identifier ⟨otp, now + ttlSeconds, 0⟩

/-- Outcome of `/api/request-otp` (healthcare_app.py:726-739). -/
inductive HRequestResult where
  | missingIdentifier
  | unknownIdentifier
  | okGenerated
deriving DecidableEq

/-- `api_request_otp` (healthcare_app.py:726-739): rejects identifiers not
present in `USERS['employee']` with a distinct 404 before generating
anything. `employees` is the set of keys of `USERS['employee']`. -/
def api_request_otp (ttlSeconds : Nat) (employees : List String) (store : HOtpStore)
    (now : Nat) (identifier otp : String) : HRequestResult × HOtpStore :=
  if identifier = "" then (.missingIdentifier, store)
  else if identifier ∉ employees then (.unknownIdentifier, store)
  else (.okGenerated, request_otp_for ttlSeconds store now identifier otp)

/-- HTTP status and error body of each `/api/request-otp` outcome
(healthcare_app.py:731,734,737). -/
def hRequestResponse : HRequestResult → Nat × Option String
  | .missingIdentifier => (400, some "identifier required")
  | .unknownIdentifier => (404, some "unknown employee identifier")
  | .okGenerated => (200, none)

/-- Outcome of `/api/verify-otp` (healthcare_app.py:741-768). -/
inductive HVerifyResult where
  | missingFields
  | notFound
  | tooManyAttempts
  | otpExpired
  | invalidOtp
  | employeeNotFound
  | success
deriving DecidableEq

/-- `api_verify_otp` (healthcare_app.py:741-768): increments `attempts`
on the stored record before any other check (the dict entry is mutated in
place), then checks `attempts > MAX_OTP_ATTEMPTS` (deleting the record),
then expiry (deleting the record), then the raw-string comparison
`record['otp'] != str(otp).strip()`, and finally deletes the record and
logs the employee in. The session login side effect carries the
`USERS['employee']` profile blob and is not modelled beyond the result;
`employees` is the set of keys of `USERS['employee']`. -/
def api_verify_otp (maxAttempts : Nat) (employees : List String) (store : HOtpStore)
    (now : Nat) (identifier otp : String) : HVerifyResult × HOtpStore :=
  if identifier = "" ∨ otp = "" then (.missingFields, store)
  else
    match store identifier with
    | none => (.notFound, store)
    | some record =>
      let record1 : HOtpRecord := { record with attempts := record.attempts + 1 }
      let store1 : HOtpStore := upd store identifier record1
      if maxAttempts < record1.attempts then (.tooManyAttempts, del store1 identifier)
      else if record1.expires_at < now then (.otpExpired, del store1 identifier)
      else if record1.otp ≠ pyStrip otp then (.invalidOtp, store1)
      else if identifier ∈ employees then (.success, del store1 identifier)
      else (.employeeNotFound, del store1 identifier)

/-- HTTP status and error body of each `/api/verify-otp` outcome
(healthcare_app.py:747,750,754,757,759,764,768). -/
def hVerifyResponse : HVerifyResult → Nat × Option String
  | .missingFields => (400, some "identifier and otp required")
  | .notFound => (400, some "no OTP requested for this identifier")
  | .tooManyAttempts => (429, some "too many attempts")
  | .otpExpired => (400, some "otp expired")
  | .invalidOtp => (400, some "invalid otp")
  | .employeeNotFound => (404, some "employee not found")
  | .success => (200, none)

/-! The patient-consent flow (healthcare_app.py:401-537). -/

/-- An entry of `patient_otp_store` (healthcare_app.py:81,421-426). -/
structure PatientOtpRecord where
  otp : String
  expires_at : Nat
  attempts : Nat
  patient_id : String
deriving DecidableEq

/-- The in-memory `patient_otp_store` (healthcare_app.py:81), keyed by phone. -/
def PatientOtpStore : Type := String → Option PatientOtpRecord

/-- `session['patient_access']` (healthcare_app.py:464-467). -/
structure PatientAccess where
  patient_id : String
  expires_at : Nat
deriving DecidableEq

/-- The two session user types (healthcare_app.py USERS keys). -/
inductive UserType where
  | employee
  | patient
deriving DecidableEq

/-- The parts of the Flask `session` record that the consent flow reads:
`user_type`, `user_data['patient_id']` (an int for seeded users, a
`PAT____` string otherwise), and `patient_access`. -/
structure HSession where
  user_type : Option UserType
  user_data_patient_id : Option (Nat ⊕ String)
  patient_access : Option PatientAccess
deriving DecidableEq

/-- The two fields of a `healthcare_data['patients']` entry that the
access-control code inspects (`id` and `patient_id`); the remaining
profile fields are opaque payload. -/
structure HPatient where
  id : Nat
  patient_id : String
deriving DecidableEq

/-- Outcome of `/api/verify-patient-otp` (healthcare_app.py:434-476). -/
inductive PVerifyResult where
  | unauthorized
  | missingFields
  | notRequested
  | otpExpired
  | tooManyAttempts
  | invalidOtp
  | verified
deriving DecidableEq

/-- `api_verify_patient_otp` (healthcare_app.py:434-476): requires an
employee session; checks expiry before the comparison; increments
`attempts` only on mismatch with a hard-coded ceiling of 5; on success
replaces `session['patient_access']` with a grant for the `patient_id`
stored in the OTP record and deletes the record. `accessSeconds` is the
`PATIENT_ACCESS_SECONDS` configuration. -/
def api_verify_patient_otp (accessSeconds : Nat) (pstore : PatientOtpStore)
    (sess : HSession) (now : Nat) (phone otp : String) :
    PVerifyResult × PatientOtpStore × HSession :=
  if sess.user_type ≠ some .employee then (.unauthorized, pstore, sess)
  else if phone = "" ∨ otp = "" then (.missingFields, pstore, sess)
  else
    match pstore phone with
    | none => (.notRequested, pstore, sess)
    | some record =>
      if record.expires_at < now then (.otpExpired, del pstore phone, sess)
      else if record.otp ≠ pyStrip otp then
        let record1 : PatientOtpRecord := { record with attempts := record.attempts + 1 }
        if 5 < record1.attempts then (.tooManyAttempts, del pstore phone, sess)
        else (.invalidOtp, upd pstore phone record1, sess)
      else
        (.verified, del pstore phone,
          { sess with patient_access := some ⟨record.patient_id, now + accessSeconds⟩ })

/-- Outcome of `/api/get-patient/<patient_id>` (healthcare_app.py:479-529). -/
inductive GetPatientResult where
  | unauthorized
  | notFound
  | accessRequired
  | accessExpired
  | accessMismatch
  | selfPatient (p : HPatient)
  | grantedPatient (p : HPatient) (access_expires_at : Nat)
deriving DecidableEq

/-- The patient lookup of healthcare_app.py:491: match on `patient_id`
or on the stringified numeric `id`. -/
def find_patient (patients : List HPatient) (patient_id : String) : Option HPatient :=
  patients.find? (fun p => p.patient_id == patient_id || toString p.id == patient_id)

/-- `api_get_patient` (healthcare_app.py:479-529). A patient session may
read its own record (matching the session patient id by number or by
string); an employee session needs a live `patient_access` grant whose
`patient_id` equals the requested patient's `patient_id`, with a distinct
failure for a grant held for a different patient. The `fromisoformat`
failure branch (healthcare_app.py:512-516) cannot arise in the embedding,
where the grant expiry is already a timestamp. -/
def api_get_patient (patients : List HPatient) (sess : HSession) (now : Nat)
    (patient_id : String) : GetPatientResult × HSession :=
  match sess.user_type with
  | none => (.unauthorized, sess)
  | some ut =>
    match find_patient patients patient_id with
    | none => (.notFound, sess)
    | some patient =>
      match ut with
      | .patient =>
        match sess.user_data_patient_id with
        | some (Sum.inl n) =>
          if n = patient.id then (.selfPatient patient, sess) else (.unauthorized, sess)
        | some (Sum.inr s) =>
          if s = patient.patient_id then (.selfPatient patient, sess)
          else (.unauthorized, sess)
        | none => (.unauthorized, sess)
      | .employee =>
        match sess.patient_access with
        | none => (.accessRequired, sess)
        | some access =>
          if access.expires_at < now then
            (.accessExpired, { sess with patient_access := none })
          else if access.patient_id ≠ patient.patient_id then (.accessMismatch, sess)
          else (.grantedPatient patient access.expires_at, sess)

/-- HTTP status and machine-readable error of each
`/api/get-patient/<patient_id>` outcome (healthcare_app.py:488,494,504,
510,516,520,524,527). -/
def getPatientResponse : GetPatientResult → Nat × Option String
  | .unauthorized => (403, some "Unauthorized")
  | .notFound => (404, some "Not found")
  | .accessRequired => (401, some "access_required")
  | .accessExpired => (401, some "access_expired")
  | .accessMismatch => (403, some "access_mismatch")
  | .selfPatient _ => (200, none)
  | .grantedPatient _ _ => (200, none)

end Healthcare

/-! Which comparison primitive each OTP verification path applies to the
candidate secret, read off the verification lines of the source. -/

/-- The two comparison styles occurring in the source. -/
inductive SecretComparison where
  | constantTime
  | plainEquality
deriving DecidableEq

/-- src/api/app.py:157 compares via `hmac.compare_digest(...)`. -/
def apiApp_verify_comparison : SecretComparison := .constantTime

/-- src/healthcare_app.py:758 compares via `record['otp'] != str(otp).strip()`. -/
def employee_login_verify_comparison : SecretComparison := .plainEquality

/-- src/healthcare_app.py:454 compares via `record['otp'] != str(otp).strip()`. -/
def patient_consent_verify_comparison : SecretComparison := .plainEquality

/-- src/healthcare_app.py:805 compares via `record['otp'] != str(otp).strip()`. -/
def patient_login_verify_comparison : SecretComparison := .plainEquality

/-- All OTP verification paths of the program with the comparison each
performs on secret material. -/
def otpVerificationComparisons : List SecretComparison :=
  [apiApp_verify_comparison, employee_login_verify_comparison,
   patient_consent_verify_comparison, patient_login_verify_comparison]


/-! # Claim theorems -/

/-- C1: for every identifier holding a freshly requested OTP record, the
first verify call with the exact secret succeeds and deletes the record,
and a second verify with the same identifier and secret fails with
NotFound — in both the `src/api/app.py` and the `src/healthcare_app.py`
verification endpoints, a stored OTP is consumable successfully at most
once. -/
theorem otp_single_use
    (store : ApiApp.OtpStore) (hstore : Healthcare.HOtpStore) (emps : List String)
    (now t ttl httl maxAtt : Nat) (id otp salt hid hotp : String)
    (hidt : pyStrip id = id) (hidne : id ≠ "")
    (hotpt : pyStrip otp = otp) (hotpne : otp ≠ "")
    (ht : t ≤ now + ttl)
    (hhidne : hid ≠ "") (hhotpt : pyStrip hotp = hotp) (hhotpne : hotp ≠ "")
    (hmax : 1 ≤ maxAtt) (hht : t ≤ now + httl) (hmem : hid ∈ emps) :
    (ApiApp.api_verify_otp (ApiApp.store_otp store now id otp salt ttl) t id otp).1
      = .success id ∧
    ApiApp.get_otp_record
      (ApiApp.api_verify_otp (ApiApp.store_otp store now id otp salt ttl) t id otp).2 id
      = none ∧
    (ApiApp.api_verify_otp
      (ApiApp.api_verify_otp (ApiApp.store_otp store now id otp salt ttl) t id otp).2
      t id otp).1 = .notFound ∧
    (Healthcare.api_verify_otp maxAtt emps
      (Healthcare.request_otp_for httl hstore now hid hotp) t hid hotp).1 = .success ∧
    (Healthcare.api_verify_otp maxAtt emps
      (Healthcare.request_otp_for httl hstore now hid hotp) t hid hotp).2 hid = none ∧
    (Healthcare.api_verify_otp maxAtt emps
      (Healthcare.api_verify_otp maxAtt emps
        (Healthcare.request_otp_for httl hstore now hid hotp) t hid hotp).2
      t hid hotp).1 = .notFound := by
  have hnl : ¬ (now + ttl < t) := Nat.not_lt.mpr ht
  have hnlh : ¬ (now + httl < t) := Nat.not_lt.mpr hht
  have hnm : ¬ (maxAtt < 0 + 1) := by omega
  refine ⟨?_, ?_, ?_, ?_, ?_, ?_⟩
  · simp [ApiApp.api_verify_otp, ApiApp.get_otp_record, ApiApp.store_otp, upd_same,
      hidt, hotpt, hidne, hotpne, hnl, ApiApp.compare_digest, ApiApp.hash_otp,
      ApiApp.remove_otp]
  · simp [ApiApp.api_verify_otp, ApiApp.get_otp_record, ApiApp.store_otp, upd_same,
      hidt, hotpt, hidne, hotpne, hnl, ApiApp.compare_digest, ApiApp.hash_otp,
      ApiApp.remove_otp, del_same]
  · simp [ApiApp.api_verify_otp, ApiApp.get_otp_record, ApiApp.store_otp, upd_same,
      hidt, hotpt, hidne, hotpne, hnl, ApiApp.compare_digest, ApiApp.hash_otp,
      ApiApp.remove_otp, del_same]
  · simp [Healthcare.api_verify_otp, Healthcare.request_otp_for, upd_same,
      hhidne, hhotpne, hhotpt, hnm, hnlh, hmem]
  · simp [Healthcare.api_verify_otp, Healthcare.request_otp_for, upd_same,
      hhidne, hhotpne, hhotpt, hnm, hnlh, hmem, del_same]
  · simp [Healthcare.api_verify_otp, Healthcare.request_otp_for, upd_same,
      hhidne, hhotpne, hhotpt, hnm, hnlh, hmem, del_same]

/-- C1 witness: the single-use property evaluated at doctor "ramesh" with
secret "483920" (api variant) and employee "emp001" with secret "123456"
(healthcare variant). -/
theorem otp_single_use_witness :
    ("emp001" ∈ ["emp001", "admin"]) ∧
    ((ApiApp.api_verify_otp
        (ApiApp.store_otp (fun _ => none) 0 "ramesh" "483920" "s0" 120) 60 "ramesh" "483920").1
      = .success "ramesh" ∧
    ApiApp.get_otp_record
      (ApiApp.api_verify_otp
        (ApiApp.store_otp (fun _ => none) 0 "ramesh" "483920" "s0" 120) 60 "ramesh" "483920").2
      "ramesh" = none ∧
    (ApiApp.api_verify_otp
      (ApiApp.api_verify_otp
        (ApiApp.store_otp (fun _ => none) 0 "ramesh" "483920" "s0" 120) 60 "ramesh" "483920").2
      60 "ramesh" "483920").1 = .notFound ∧
    (Healthcare.api_verify_otp 5 ["emp001", "admin"]
      (Healthcare.request_otp_for 300 (fun _ => none) 0 "emp001" "123456")
      60 "emp001" "123456").1 = .success ∧
    (Healthcare.api_verify_otp 5 ["emp001", "admin"]
      (Healthcare.request_otp_for 300 (fun _ => none) 0 "emp001" "123456")
      60 "emp001" "123456").2 "emp001" = none ∧
    (Healthcare.api_verify_otp 5 ["emp001", "admin"]
      (Healthcare.api_verify_otp 5 ["emp001", "admin"]
        (Healthcare.request_otp_for 300 (fun _ => none) 0 "emp001" "123456")
        60 "emp001" "123456").2
      60 "emp001" "123456").1 = .notFound) :=
  ⟨by decide,
   otp_single_use (fun _ => none) (fun _ => none) ["emp001", "admin"]
     0 60 120 300 5 "ramesh" "483920" "s0" "emp001" "123456"
     (by decide) (by decide) (by decide) (by decide) (by decide)
     (by decide) (by decide) (by decide) (by decide) (by decide) (by decide)⟩

/-- C2: a session token is accepted by `decode_token_and_validate` only
if its signature verifies under the server key, the current time is
before its `exp`, and its `jti` is not blacklisted; after revocation via
`/api/logout`, validating that same token fails as revoked even before
its natural expiry, while a different still-live token for the same
subject continues to validate successfully. -/
theorem session_token_validation_and_revocation
    (bl : ApiApp.Blacklist) (key sub : String) (iat1 iat2 exp1 exp2 now : Nat)
    (jti1 jti2 : String)
    (hj1 : jti1 ≠ "") (hj2 : jti2 ≠ "") (hne : jti2 ≠ jti1)
    (hb1 : bl jti1 = none) (hb2 : bl jti2 = none)
    (hl1 : now < exp1) (hl2 : now < exp2) :
    (∀ (token : ApiApp.SignedToken) (p : ApiApp.TokenPayload),
      (ApiApp.decode_token_and_validate bl key now (some token)).1 = .ok p →
      token.sig = (key, token.payload) ∧ now < token.payload.exp ∧
      (ApiApp.is_blacklisted bl now token.payload.jti).1 = false) ∧
    (ApiApp.api_logout bl key now
      (some (ApiApp.jwt_encode ⟨sub, exp1, iat1, jti1⟩ key))).1 = .loggedOut ∧
    (ApiApp.decode_token_and_validate
      (ApiApp.api_logout bl key now (some (ApiApp.jwt_encode ⟨sub, exp1, iat1, jti1⟩ key))).2
      key now (some (ApiApp.jwt_encode ⟨sub, exp1, iat1, jti1⟩ key))).1 = .revoked ∧
    (ApiApp.decode_token_and_validate
      (ApiApp.api_logout bl key now (some (ApiApp.jwt_encode ⟨sub, exp1, iat1, jti1⟩ key))).2
      key now (some (ApiApp.jwt_encode ⟨sub, exp2, iat2, jti2⟩ key))).1
      = .ok ⟨sub, exp2, iat2, jti2⟩ := by
  have hnle1 : ¬ (exp1 ≤ now) := Nat.not_le.mpr hl1
  have hnle2 : ¬ (exp2 ≤ now) := Nat.not_le.mpr hl2
  have he1 : exp1 ≠ 0 := by omega
  refine ⟨?_, ?_, ?_, ?_⟩
  · intro token p h
    by_cases hs : token.sig = (key, token.payload)
    · by_cases hexp : token.payload.exp ≤ now
      · exfalso
        simp [ApiApp.decode_token_and_validate, ApiApp.jwt_decode, hs, hexp] at h
      · refine ⟨hs, Nat.not_le.mp hexp, ?_⟩
        by_cases hj : token.payload.jti = ""
        · exfalso
          simp [ApiApp.decode_token_and_validate, ApiApp.jwt_decode, hs, hexp, hj] at h
        · rcases hbl : ApiApp.is_blacklisted bl now token.payload.jti with ⟨b, bl1⟩
          cases b
          · simp
          · exfalso
            simp [ApiApp.decode_token_and_validate, ApiApp.jwt_decode, hs, hexp, hj,
              hbl] at h
    · exfalso
      simp [ApiApp.decode_token_and_validate, ApiApp.jwt_decode, hs] at h
  · simp [ApiApp.api_logout, ApiApp.decode_token_and_validate, ApiApp.jwt_decode,
      ApiApp.jwt_encode, ApiApp.is_blacklisted, hb1, hj1, hnle1]
  · simp [ApiApp.api_logout, ApiApp.decode_token_and_validate, ApiApp.jwt_decode,
      ApiApp.jwt_encode, ApiApp.is_blacklisted, ApiApp.blacklist_session,
      hb1, hj1, hnle1, upd_same, he1]
  · simp [ApiApp.api_logout, ApiApp.decode_token_and_validate, ApiApp.jwt_decode,
      ApiApp.jwt_encode, ApiApp.is_blacklisted, ApiApp.blacklist_session,
      hb1, hb2, hj1, hj2, hne, hnle1, hnle2, upd_same, upd_ne]

/-- C2 witness: revocation scenario evaluated for subject "doc1" with
tokens "j1" and "j2" on an empty blacklist, revoking "j1" at time 10 well
before both expiries (120). -/
theorem session_token_validation_and_revocation_witness :
    ((10 : Nat) < 120) ∧
    (ApiApp.api_logout (fun _ => none) "k" 10
      (some (ApiApp.jwt_encode ⟨"doc1", 120, 0, "j1"⟩ "k"))).1 = .loggedOut ∧
    (ApiApp.decode_token_and_validate
      (ApiApp.api_logout (fun _ => none) "k" 10
        (some (ApiApp.jwt_encode ⟨"doc1", 120, 0, "j1"⟩ "k"))).2
      "k" 10 (some (ApiApp.jwt_encode ⟨"doc1", 120, 0, "j1"⟩ "k"))).1 = .revoked ∧
    (ApiApp.decode_token_and_validate
      (ApiApp.api_logout (fun _ => none) "k" 10
        (some (ApiApp.jwt_encode ⟨"doc1", 120, 0, "j1"⟩ "k"))).2
      "k" 10 (some (ApiApp.jwt_encode ⟨"doc1", 120, 0, "j2"⟩ "k"))).1
      = .ok ⟨"doc1", 120, 0, "j2"⟩ :=
  have h := session_token_validation_and_revocation (fun _ => none) "k" "doc1"
    0 0 120 120 10 "j1" "j2"
    (by decide) (by decide) (by decide) rfl rfl (by decide) (by decide)
  ⟨by decide, h.2.1, h.2.2.1, h.2.2.2⟩

/-- C3: a consent grant authorizes exactly the subject recorded at
grant-creation time: after `api_verify_patient_otp` succeeds for an OTP
record scoped to patient A, `api_get_patient` for A on that employee
session is authorized, while a request for a different existing patient B
on the same session fails with the access-mismatch error, which is
distinct from the no-grant and the expired-grant errors. -/
theorem consent_grant_subject_scope
    (patients : List Healthcare.HPatient) (pstore : Healthcare.PatientOtpStore)
    (sess : Healthcare.HSession) (now t accessSeconds : Nat)
    (phone otp reqA reqB : String) (record : Healthcare.PatientOtpRecord)
    (pa pb : Healthcare.HPatient)
    (hemp : sess.user_type = some .employee)
    (hrec : pstore phone = some record)
    (hlive : now ≤ record.expires_at)
    (hmatch : record.otp = pyStrip otp)
    (hphone : phone ≠ "") (hotp : otp ≠ "")
    (hfindA : Healthcare.find_patient patients reqA = some pa)
    (hfindB : Healthcare.find_patient patients reqB = some pb)
    (hpa : pa.patient_id = record.patient_id)
    (hpb : pb.patient_id ≠ record.patient_id)
    (ht : t ≤ now + accessSeconds) :
    (Healthcare.api_verify_patient_otp accessSeconds pstore sess now phone otp).1
      = .verified ∧
    (Healthcare.api_get_patient patients
      (Healthcare.api_verify_patient_otp accessSeconds pstore sess now phone otp).2.2
      t reqA).1 = .grantedPatient pa (now + accessSeconds) ∧
    (Healthcare.api_get_patient patients
      (Healthcare.api_verify_patient_otp accessSeconds pstore sess now phone otp).2.2
      t reqB).1 = .accessMismatch ∧
    Healthcare.getPatientResponse .accessMismatch
      ≠ Healthcare.getPatientResponse .accessRequired ∧
    Healthcare.getPatientResponse .accessMismatch
      ≠ Healthcare.getPatientResponse .accessExpired := by
  have hnl : ¬ (record.expires_at < now) := Nat.not_lt.mpr hlive
  have hnt : ¬ (now + accessSeconds < t) := Nat.not_lt.mpr ht
  have hpb2 : record.patient_id ≠ pb.patient_id := fun h => hpb h.symm
  refine ⟨?_, ?_, ?_, by decide, by decide⟩
  · simp [Healthcare.api_verify_patient_otp, hemp, hphone, hotp, hrec, hnl, hmatch]
  · simp [Healthcare.api_verify_patient_otp, hemp, hphone, hotp, hrec, hnl, hmatch,
      Healthcare.api_get_patient, hfindA, hnt, hpa.symm]
  · simp [Healthcare.api_verify_patient_otp, hemp, hphone, hotp, hrec, hnl, hmatch,
      Healthcare.api_get_patient, hfindB, hnt, hpb2]

/-- C3 witness: the scoping scenario evaluated with one pending OTP
"246801" for phone "+1-555-0100" scoped to "PAT0007", then reads of
"PAT0007" (authorized) and "PAT0099" (mismatch). -/
theorem consent_grant_subject_scope_witness :
    ("PAT0099" ≠ "PAT0007") ∧
    (Healthcare.api_verify_patient_otp 120
      (upd (fun _ => none) "+1-555-0100" ⟨"246801", 300, 0, "PAT0007"⟩)
      ⟨some .employee, none, none⟩ 0 "+1-555-0100" "246801").1 = .verified ∧
    (Healthcare.api_get_patient [⟨7, "PAT0007"⟩, ⟨99, "PAT0099"⟩]
      (Healthcare.api_verify_patient_otp 120
        (upd (fun _ => none) "+1-555-0100" ⟨"246801", 300, 0, "PAT0007"⟩)
        ⟨some .employee, none, none⟩ 0 "+1-555-0100" "246801").2.2
      60 "PAT0007").1 = .grantedPatient ⟨7, "PAT0007"⟩ 120 ∧
    (Healthcare.api_get_patient [⟨7, "PAT0007"⟩, ⟨99, "PAT0099"⟩]
      (Healthcare.api_verify_patient_otp 120
        (upd (fun _ => none) "+1-555-0100" ⟨"246801", 300, 0, "PAT0007"⟩)
        ⟨some .employee, none, none⟩ 0 "+1-555-0100" "246801").2.2
      60 "PAT0099").1 = .accessMismatch :=
  have h := consent_grant_subject_scope [⟨7, "PAT0007"⟩, ⟨99, "PAT0099"⟩]
    (upd (fun _ => none) "+1-555-0100" ⟨"246801", 300, 0, "PAT0007"⟩)
    ⟨some .employee, none, none⟩ 0 60 120 "+1-555-0100" "246801" "PAT0007" "PAT0099"
    ⟨"246801", 300, 0, "PAT0007"⟩ ⟨7, "PAT0007"⟩ ⟨99, "PAT0099"⟩
    rfl (by decide) (by decide) (by decide) (by decide) (by decide)
    (by decide) (by decide) rfl (by decide) (by decide)
  ⟨by decide, h.1, h.2.1, h.2.2.1⟩

/-- The healthcare OTP store after n consecutive wrong verification
attempts for one identifier. -/
def Healthcare.storeAfterWrong (maxAttempts : Nat) (employees : List String)
    (now : Nat) (identifier wrong : String) (s : Healthcare.HOtpStore) :
    Nat → Healthcare.HOtpStore
  | 0 => s
  | n + 1 => (Healthcare.api_verify_otp maxAttempts employees
      (Healthcare.storeAfterWrong maxAttempts employees now identifier wrong s n)
      now identifier wrong).2

/-- C4 counterexample: with the default `MAX_OTP_ATTEMPTS = 5`, the 5th
consecutive wrong verification attempt on a fresh record returns the
invalid-otp failure and leaves the record stored (with attempts = 5) —
it does not return the too-many-attempts failure and does not delete the
record, contrary to the claim that the (max-attempts)-th wrong attempt
does both. -/
theorem max_attempts_boundary_counterexample :
    (Healthcare.api_verify_otp 5 ["emp001"]
      (Healthcare.storeAfterWrong 5 ["emp001"] 0 "emp001" "000000"
        (Healthcare.request_otp_for 300 (fun _ => none) 0 "emp001" "123456") 4)
      0 "emp001" "000000").1 = .invalidOtp ∧
    (Healthcare.api_verify_otp 5 ["emp001"]
      (Healthcare.storeAfterWrong 5 ["emp001"] 0 "emp001" "000000"
        (Healthcare.request_otp_for 300 (fun _ => none) 0 "emp001" "123456") 4)
      0 "emp001" "000000").2 "emp001" = some ⟨"123456", 300, 5⟩ ∧
    Healthcare.HVerifyResult.invalidOtp ≠ Healthcare.HVerifyResult.tooManyAttempts := by
  decide

/-- C4 amended: wrong attempts keep returning the invalid-otp failure up
to and including the (max-attempts)-th, each leaving the record present
with its incremented counter and (below the ceiling) still redeemable by
the correct secret; it is the (max-attempts + 1)-th verification attempt
— with any candidate — that returns too-many-attempts and deletes the
record, after which every verify returns not-found. -/
theorem max_attempts_exceeded_behavior
    (maxAtt : Nat) (emps : List String) (base : Healthcare.HOtpStore)
    (now e : Nat) (id otp wrong cand : String)
    (hidne : id ≠ "") (hwne : wrong ≠ "") (hcne : cand ≠ "")
    (hwt : pyStrip wrong = wrong) (hot : pyStrip otp = otp) (hone : otp ≠ "")
    (hw : otp ≠ wrong) (hlive : now ≤ e) (hmem : id ∈ emps) :
    (∀ n, n < maxAtt →
      Healthcare.api_verify_otp maxAtt emps (upd base id ⟨otp, e, n⟩) now id wrong
        = (.invalidOtp, upd base id ⟨otp, e, n + 1⟩)) ∧
    (∀ n, n < maxAtt →
      (Healthcare.api_verify_otp maxAtt emps (upd base id ⟨otp, e, n⟩) now id otp).1
        = .success) ∧
    (Healthcare.api_verify_otp maxAtt emps (upd base id ⟨otp, e, maxAtt⟩) now id cand).1
      = .tooManyAttempts ∧
    (Healthcare.api_verify_otp maxAtt emps (upd base id ⟨otp, e, maxAtt⟩) now id cand).2 id
      = none ∧
    (∀ (s : Healthcare.HOtpStore), s id = none →
      (Healthcare.api_verify_otp maxAtt emps s now id cand).1 = .notFound) := by
  have hnl : ¬ (e < now) := Nat.not_lt.mpr hlive
  refine ⟨?_, ?_, ?_, ?_, ?_⟩
  · intro n hn
    have hceil : ¬ (maxAtt < n + 1) := by omega
    simp [Healthcare.api_verify_otp, upd_same, upd_upd, hidne, hwne, hceil, hnl, hwt, hw]
  · intro n hn
    have hceil : ¬ (maxAtt < n + 1) := by omega
    simp [Healthcare.api_verify_otp, upd_same, hidne, hone, hceil, hnl, hot, hmem]
  · have hceil : maxAtt < maxAtt + 1 := Nat.lt_succ_self maxAtt
    simp [Healthcare.api_verify_otp, upd_same, hidne, hcne, hceil]
  · have hceil : maxAtt < maxAtt + 1 := Nat.lt_succ_self maxAtt
    simp [Healthcare.api_verify_otp, upd_same, hidne, hcne, hceil, del_same]
  · intro s hs
    simp [Healthcare.api_verify_otp, hidne, hcne, hs]

/-- C4 amended witness: the boundary behavior at max-attempts = 5 for
employee "emp001", evaluated at attempt counters 2 and 5. -/
theorem max_attempts_exceeded_behavior_witness :
    ((2 : Nat) < 5) ∧
    Healthcare.api_verify_otp 5 ["emp001"]
      (upd (fun _ => none) "emp001" ⟨"123456", 300, 2⟩) 0 "emp001" "000000"
      = (.invalidOtp, upd (fun _ => none) "emp001" ⟨"123456", 300, 3⟩) ∧
    (Healthcare.api_verify_otp 5 ["emp001"]
      (upd (fun _ => none) "emp001" ⟨"123456", 300, 2⟩) 0 "emp001" "123456").1
      = .success ∧
    (Healthcare.api_verify_otp 5 ["emp001"]
      (upd (fun _ => none) "emp001" ⟨"123456", 300, 5⟩) 0 "emp001" "999999").1
      = .tooManyAttempts ∧
    (Healthcare.api_verify_otp 5 ["emp001"]
      (upd (fun _ => none) "emp001" ⟨"123456", 300, 5⟩) 0 "emp001" "999999").2 "emp001"
      = none :=
  have h := max_attempts_exceeded_behavior 5 ["emp001"] (fun _ => none) 0 300
    "emp001" "123456" "000000" "999999"
    (by decide) (by decide) (by decide) (by decide) (by decide) (by decide)
    (by decide) (by decide) (by decide)
  ⟨by decide, h.1 2 (by decide), h.2.1 2 (by decide), h.2.2.1, h.2.2.2.1⟩

/-- C5 counterexample: verification of an expired record (stored at time
0 with TTL 5, verified at time 10) fails with the "otp expired" response,
while verification with no record fails with the "no valid otp found ..."
response — the two failures carry different bodies, so the caller can
distinguish an expired record from an absent one. -/
theorem expired_vs_absent_distinguishable :
    (ApiApp.api_verify_otp
      (ApiApp.store_otp (fun _ => none) 0 "ramesh" "483920" "s0" 5)
      10 "ramesh" "483920").1 = .expired ∧
    (ApiApp.api_verify_otp (fun _ => none) 10 "ramesh" "483920").1 = .notFound ∧
    ApiApp.verifyResponse .expired ≠ ApiApp.verifyResponse .notFound := by
  decide

/-- C5 amended: a verify performed strictly after the record's expiry
always fails and deletes the record — the secret can never be redeemed
past its TTL — but in both variants the failure is reported with the
distinct "otp expired" body rather than the absent-record body, so the
two failures are distinguishable (the healthcare variant additionally
requires the attempt ceiling not to be already exceeded for the expired
branch to be reached). -/
theorem verify_after_expiry_fails
    (store : ApiApp.OtpStore) (hstore : Healthcare.HOtpStore)
    (maxAtt : Nat) (emps : List String) (now : Nat)
    (id otp hid hotp : String) (rec1 : ApiApp.OtpRecord) (hrec1 : Healthcare.HOtpRecord)
    (h1 : ApiApp.get_otp_record store id = some rec1) (hex : rec1.expires_at < now)
    (hidt : pyStrip id = id) (hidne : id ≠ "")
    (hotpt : pyStrip otp = otp) (hotpne : otp ≠ "")
    (hh : hstore hid = some hrec1) (hhex : hrec1.expires_at < now)
    (hatt : hrec1.attempts + 1 ≤ maxAtt)
    (hhidne : hid ≠ "") (hhotpne : hotp ≠ "") :
    (ApiApp.api_verify_otp store now id otp).1 = .expired ∧
    ApiApp.get_otp_record (ApiApp.api_verify_otp store now id otp).2 id = none ∧
    ApiApp.verifyResponse .expired ≠ ApiApp.verifyResponse .notFound ∧
    (Healthcare.api_verify_otp maxAtt emps hstore now hid hotp).1 = .otpExpired ∧
    (Healthcare.api_verify_otp maxAtt emps hstore now hid hotp).2 hid = none ∧
    Healthcare.hVerifyResponse .otpExpired ≠ Healthcare.hVerifyResponse .notFound := by
  have h1' : store ("otp:" ++ id) = some rec1 := h1
  have hceil : ¬ (maxAtt < hrec1.attempts + 1) := Nat.not_lt.mpr hatt
  refine ⟨?_, ?_, by decide, ?_, ?_, by decide⟩
  · simp [ApiApp.api_verify_otp, ApiApp.get_otp_record, hidt, hotpt, hidne, hotpne,
      h1', hex]
  · simp [ApiApp.api_verify_otp, ApiApp.get_otp_record, ApiApp.remove_otp, hidt, hotpt,
      hidne, hotpne, h1', hex, del_same]
  · simp [Healthcare.api_verify_otp, hh, hhidne, hhotpne, hceil, hhex]
  · simp [Healthcare.api_verify_otp, hh, hhidne, hhotpne, hceil, hhex, del_same]

/-- C5 amended witness: expired-record verification evaluated at time 10
for a record stored at time 0 with TTL 5 in each variant. -/
theorem verify_after_expiry_fails_witness :
    ((5 : Nat) < 10) ∧
    (ApiApp.api_verify_otp
      (upd (fun _ => none) "otp:ramesh" ⟨ApiApp.hash_otp "483920" "s0", "s0", 5⟩)
      10 "ramesh" "483920").1 = .expired ∧
    (Healthcare.api_verify_otp 5 ["emp001"]
      (upd (fun _ => none) "emp001" ⟨"123456", 5, 0⟩) 10 "emp001" "123456").1
      = .otpExpired ∧
    Healthcare.hVerifyResponse .otpExpired ≠ Healthcare.hVerifyResponse .notFound :=
  have h := verify_after_expiry_fails
    (upd (fun _ => none) "otp:ramesh" ⟨ApiApp.hash_otp "483920" "s0", "s0", 5⟩)
    (upd (fun _ => none) "emp001" ⟨"123456", 5, 0⟩)
    5 ["emp001"] 10 "ramesh" "483920" "emp001" "123456"
    ⟨ApiApp.hash_otp "483920" "s0", "s0", 5⟩ ⟨"123456", 5, 0⟩
    (by decide) (by decide) (by decide) (by decide) (by decide) (by decide)
    (by decide) (by decide) (by decide) (by decide) (by decide)
  ⟨by decide, h.1, h.2.2.2.1, h.2.2.2.2.2⟩

/-- C6 counterexample: the healthcare `request_otp_for` stores the raw
secret itself — the stored record for "emp001" literally contains the
generated OTP "123456" in its `otp` field, with no salt and no hash —
contradicting the claim that every requestOtp path stores only
`hash(salt, secret)`. -/
theorem healthcare_stores_raw_secret :
    (Healthcare.request_otp_for 300 (fun _ => none) 0 "emp001" "123456") "emp001"
      = some ⟨"123456", 300, 0⟩ ∧
    Option.map Healthcare.HOtpRecord.otp
      ((Healthcare.request_otp_for 300 (fun _ => none) 0 "emp001" "123456") "emp001")
      = some "123456" := by
  decide

/-- C6 amended: in `src/api/app.py`, `store_otp` stores only the salted
hash, the salt and the expiry — never the raw secret — and the
`/api/request_otp` response is independent of the generated secret (the
secret leaves only through the out-of-band delivery collaborator); the
`src/healthcare_app.py` request paths, by contrast, store the raw secret
in the record, although their responses are likewise independent of it. -/
theorem otp_storage_hashed_and_response_secret_free
    (store : ApiApp.OtpStore) (hstore : Healthcare.HOtpStore) (emps : List String)
    (now v httl : Nat) (id otp otp2 salt hid hotp hotp2 : String) :
    ApiApp.store_otp store now id otp salt v ("otp:" ++ id)
      = some ⟨ApiApp.hash_otp otp salt, salt, now + v⟩ ∧
    (ApiApp.api_request_otp store now v id otp salt).1
      = (ApiApp.api_request_otp store now v id otp2 salt).1 ∧
    (Healthcare.api_request_otp httl emps hstore now hid hotp).1
      = (Healthcare.api_request_otp httl emps hstore now hid hotp2).1 ∧
    Healthcare.request_otp_for httl hstore now hid hotp hid
      = some ⟨hotp, now + httl, 0⟩ := by
  refine ⟨?_, ?_, ?_, ?_⟩
  · simp [ApiApp.store_otp, upd_same]
  · by_cases h : pyStrip id = "" <;> simp [ApiApp.api_request_otp, h]
  · by_cases h : hid = ""
    · simp [Healthcare.api_request_otp, h]
    · by_cases hm : hid ∈ emps <;> simp [Healthcare.api_request_otp, h, hm]
  · simp [Healthcare.request_otp_for, upd_same]

/-- C7 counterexample: `get_otp_record` takes no clock and performs no
expiry comparison: the record stored at time 0 with TTL 5 is still
returned by `get_otp_record` even though its expiry (5) lies strictly
before, e.g., time 10 — expiry of OTP records is not enforced by the
store's own read. -/
theorem get_otp_record_returns_expired :
    ApiApp.get_otp_record
      (ApiApp.store_otp (fun _ => none) 0 "ramesh" "483920" "s0" 5) "ramesh"
      = some ⟨ApiApp.hash_otp "483920" "s0", "s0", 5⟩ ∧
    ((5 : Nat) < 10) := by
  decide

/-- C7 amended: lazy expiry-on-read holds for the session blacklist
(`is_blacklisted` reports an entry past its expiry as absent and removes
it), but not for the OTP store: `get_otp_record` returns an expired
record unchanged, and it is the caller `api_verify_otp` that checks the
TTL, failing with the expired error and deleting the record. -/
theorem lazy_expiry_blacklist_caller_enforced_otp
    (store : ApiApp.OtpStore) (bl : ApiApp.Blacklist) (now e : Nat)
    (id jti otp : String) (rec1 : ApiApp.OtpRecord)
    (hrec : ApiApp.get_otp_record store id = some rec1) (hex : rec1.expires_at < now)
    (hidt : pyStrip id = id) (hidne : id ≠ "")
    (hotpt : pyStrip otp = otp) (hotpne : otp ≠ "")
    (hbl : bl jti = some e) (he0 : e ≠ 0) (hel : e ≤ now) :
    (ApiApp.is_blacklisted bl now jti).1 = false ∧
    (ApiApp.is_blacklisted bl now jti).2 jti = none ∧
    (ApiApp.api_verify_otp store now id otp).1 = .expired ∧
    ApiApp.get_otp_record (ApiApp.api_verify_otp store now id otp).2 id = none := by
  have hrec' : store ("otp:" ++ id) = some rec1 := hrec
  refine ⟨?_, ?_, ?_, ?_⟩
  · simp [ApiApp.is_blacklisted, hbl, he0, hel]
  · simp [ApiApp.is_blacklisted, hbl, he0, hel, del_same]
  · simp [ApiApp.api_verify_otp, ApiApp.get_otp_record, hidt, hotpt, hidne, hotpne,
      hrec', hex]
  · simp [ApiApp.api_verify_otp, ApiApp.get_otp_record, ApiApp.remove_otp, hidt, hotpt,
      hidne, hotpne, hrec', hex, del_same]

/-- C7 amended witness: a blacklist entry for "j1" expired at 50 read at
time 60, and an OTP record expired at 5 verified at time 60. -/
theorem lazy_expiry_blacklist_caller_enforced_otp_witness :
    ((50 : Nat) ≤ 60) ∧
    (ApiApp.is_blacklisted (upd (fun _ => none) "j1" 50) 60 "j1").1 = false ∧
    (ApiApp.api_verify_otp
      (upd (fun _ => none) "otp:ramesh" ⟨ApiApp.hash_otp "483920" "s0", "s0", 5⟩)
      60 "ramesh" "483920").1 = .expired :=
  have h := lazy_expiry_blacklist_caller_enforced_otp
    (upd (fun _ => none) "otp:ramesh" ⟨ApiApp.hash_otp "483920" "s0", "s0", 5⟩)
    (upd (fun _ => none) "j1" 50) 60 50 "ramesh" "j1" "483920"
    ⟨ApiApp.hash_otp "483920" "s0", "s0", 5⟩
    (by decide) (by decide) (by decide) (by decide) (by decide) (by decide)
    (by decide) (by decide) (by decide)
  ⟨by decide, h.1, h.2.2.1⟩

/-- C8 counterexample: the healthcare `/api/request-otp` endpoint answers
404 "unknown employee identifier" for an identifier that is not an
employee and 200 for one that is — the observable outcome of the request
operation reveals whether the identifier exists, contradicting the claim
that failures are indistinguishable from those for existing identifiers. -/
theorem request_otp_reveals_existence :
    (Healthcare.api_request_otp 300 ["emp001"] (fun _ => none) 0 "emp999" "111111").1
      = .unknownIdentifier ∧
    (Healthcare.api_request_otp 300 ["emp001"] (fun _ => none) 0 "emp001" "111111").1
      = .okGenerated ∧
    Healthcare.hRequestResponse .unknownIdentifier
      = (404, some "unknown employee identifier") ∧
    Healthcare.hRequestResponse .unknownIdentifier
      ≠ Healthcare.hRequestResponse .okGenerated := by
  decide

/-- C8 amended: the healthcare verify endpoint's no-record failure is the
same for every identifier — whether or not it names an employee — so
verification failures do not reveal existence; the request endpoint,
however, rejects identifiers outside `USERS['employee']` with a distinct
404 "unknown employee identifier", revealing existence at request time. -/
theorem verify_hides_existence_request_reveals
    (maxAtt ttl : Nat) (emps1 emps2 emps : List String) (store : Healthcare.HOtpStore)
    (now : Nat) (id1 id2 id0 otp : String)
    (h1 : store id1 = none) (h2 : store id2 = none)
    (hne1 : id1 ≠ "") (hne2 : id2 ≠ "") (ho : otp ≠ "")
    (hid0 : id0 ≠ "") (hmem : id0 ∉ emps) :
    (Healthcare.api_verify_otp maxAtt emps1 store now id1 otp).1 = .notFound ∧
    (Healthcare.api_verify_otp maxAtt emps2 store now id2 otp).1 = .notFound ∧
    Healthcare.hVerifyResponse (Healthcare.api_verify_otp maxAtt emps1 store now id1 otp).1
      = Healthcare.hVerifyResponse (Healthcare.api_verify_otp maxAtt emps2 store now id2 otp).1 ∧
    (Healthcare.api_request_otp ttl emps store now id0 otp).1 = .unknownIdentifier ∧
    Healthcare.hRequestResponse .unknownIdentifier
      ≠ Healthcare.hRequestResponse .okGenerated := by
  have ha : (Healthcare.api_verify_otp maxAtt emps1 store now id1 otp).1 = .notFound := by
    simp [Healthcare.api_verify_otp, hne1, ho, h1]
  have hb : (Healthcare.api_verify_otp maxAtt emps2 store now id2 otp).1 = .notFound := by
    simp [Healthcare.api_verify_otp, hne2, ho, h2]
  refine ⟨ha, hb, by rw [ha, hb], ?_, by decide⟩
  simp [Healthcare.api_request_otp, hid0, hmem]

/-- C8 amended witness: identifiers "ghost1" and "emp001" with no pending
record fail verification identically, while requesting an OTP for
"ghost1" is rejected with the existence-revealing 404. -/
theorem verify_hides_existence_request_reveals_witness :
    ("ghost1" ∉ ["emp001"]) ∧
    (Healthcare.api_verify_otp 5 [] (fun _ => none) 0 "ghost1" "111111").1 = .notFound ∧
    (Healthcare.api_verify_otp 5 ["emp001"] (fun _ => none) 0 "emp001" "111111").1
      = .notFound ∧
    (Healthcare.api_request_otp 300 ["emp001"] (fun _ => none) 0 "ghost1" "111111").1
      = .unknownIdentifier :=
  have h := verify_hides_existence_request_reveals 5 300 [] ["emp001"] ["emp001"]
    (fun _ => none) 0 "ghost1" "emp001" "ghost1" "111111"
    rfl rfl (by decide) (by decide) (by decide) (by decide) (by decide)
  ⟨by decide, h.1, h.2.1, h.2.2.2.1⟩

/-- C9 counterexample: the employee-login verification path of
`src/healthcare_app.py` (line 758) compares the candidate against the
stored secret with ordinary string inequality, not a constant-time
comparison — so not every OTP verification path of the program performs a
constant-time comparison. -/
theorem secret_comparison_not_all_constant_time :
    employee_login_verify_comparison = .plainEquality ∧
    SecretComparison.plainEquality ≠ SecretComparison.constantTime ∧
    ¬ (∀ c ∈ otpVerificationComparisons, c = SecretComparison.constantTime) := by
  decide

/-- C9 amended: only the `src/api/app.py` verification path compares
secret material with the constant-time `hmac.compare_digest`; the three
OTP verification paths of `src/healthcare_app.py` (employee login,
patient consent, patient login) compare with ordinary string equality. -/
theorem secret_comparison_kinds_per_path :
    apiApp_verify_comparison = SecretComparison.constantTime ∧
    employee_login_verify_comparison = SecretComparison.plainEquality ∧
    patient_consent_verify_comparison = SecretComparison.plainEquality ∧
    patient_login_verify_comparison = SecretComparison.plainEquality ∧
    otpVerificationComparisons =
      [SecretComparison.constantTime, SecretComparison.plainEquality,
       SecretComparison.plainEquality, SecretComparison.plainEquality] := by
  decide

/-- The `src/api/app.py` OTP store after n consecutive wrong verification
attempts for one doctor id. -/
def ApiApp.storeAfterWrongApi (now : Nat) (doctor_id wrong : String)
    (s : ApiApp.OtpStore) : Nat → ApiApp.OtpStore
  | 0 => s
  | n + 1 => (ApiApp.api_verify_otp (ApiApp.storeAfterWrongApi now doctor_id wrong s n)
      now doctor_id wrong).2

/-- C10: in the doctor-facing verification endpoint of `src/api/app.py`,
a wrong secret yields the invalid failure and returns the store
completely unchanged — the record carries no attempts counter, so after
any number N of consecutive wrong guesses the store is still the original
one and a verify with the correct secret within the TTL succeeds. -/
theorem api_app_no_attempt_tracking
    (store : ApiApp.OtpStore) (now e : Nat) (id otp wrong salt : String)
    (hrec : ApiApp.get_otp_record store id = some ⟨ApiApp.hash_otp otp salt, salt, e⟩)
    (hlive : now ≤ e)
    (hidt : pyStrip id = id) (hidne : id ≠ "")
    (hwt : pyStrip wrong = wrong) (hwne : wrong ≠ "")
    (hot : pyStrip otp = otp) (hone : otp ≠ "")
    (hwrong : wrong ≠ otp) :
    ApiApp.api_verify_otp store now id wrong = (.invalid, store) ∧
    (∀ n, ApiApp.storeAfterWrongApi now id wrong store n = store) ∧
    (∀ n, (ApiApp.api_verify_otp (ApiApp.storeAfterWrongApi now id wrong store n)
      now id otp).1 = .success id) := by
  have hrec' : store ("otp:" ++ id) = some ⟨ApiApp.hash_otp otp salt, salt, e⟩ := hrec
  have hnl : ¬ (e < now) := Nat.not_lt.mpr hlive
  have hwrong2 : otp ≠ wrong := fun h => hwrong h.symm
  have hstep : ApiApp.api_verify_otp store now id wrong = (.invalid, store) := by
    simp [ApiApp.api_verify_otp, ApiApp.get_otp_record, hidt, hwt, hidne, hwne,
      hrec', hnl, ApiApp.compare_digest, ApiApp.hash_otp, hwrong2]
  have hiter : ∀ n, ApiApp.storeAfterWrongApi now id wrong store n = store := by
    intro n
    induction n with
    | zero => rfl
    | succ m ih => simp [ApiApp.storeAfterWrongApi, ih, hstep]
  refine ⟨hstep, hiter, ?_⟩
  intro n
  rw [hiter n]
  simp [ApiApp.api_verify_otp, ApiApp.get_otp_record, hidt, hot, hidne, hone,
    hrec', hnl, ApiApp.compare_digest, ApiApp.hash_otp]

/-- C10 witness: doctor "ramesh" with stored secret "483920"; a wrong
guess "000000" leaves the store unchanged and the correct secret still
succeeds after three wrong guesses. -/
theorem api_app_no_attempt_tracking_witness :
    ("000000" ≠ "483920") ∧
    ApiApp.api_verify_otp
      (upd (fun _ => none) "otp:ramesh" ⟨ApiApp.hash_otp "483920" "s0", "s0", 120⟩)
      10 "ramesh" "000000"
      = (.invalid, upd (fun _ => none) "otp:ramesh"
          ⟨ApiApp.hash_otp "483920" "s0", "s0", 120⟩) ∧
    (ApiApp.api_verify_otp
      (ApiApp.storeAfterWrongApi 10 "ramesh" "000000"
        (upd (fun _ => none) "otp:ramesh" ⟨ApiApp.hash_otp "483920" "s0", "s0", 120⟩) 3)
      10 "ramesh" "483920").1 = .success "ramesh" :=
  have h := api_app_no_attempt_tracking
    (upd (fun _ => none) "otp:ramesh" ⟨ApiApp.hash_otp "483920" "s0", "s0", 120⟩)
    10 120 "ramesh" "483920" "000000" "s0"
    (by decide) (by decide) (by decide) (by decide) (by decide) (by decide)
    (by decide) (by decide) (by decide)
  ⟨by decide, h.1, h.2.2 3⟩
